import Mathlib

/-!
Shallow embedding of `Run-Postman-Collection-Concurrent` (src/index.js).

The source file contains two near-identical variants of the pipeline
(`applyAuth` / `prepareHeaders` / `executeRequest` / `runConcurrentRequests`):
the first variant at lines 1-228, the second at lines 229-537.  `applyAuth`
and `prepareHeaders` are textually identical in the two variants, so they are
embedded once at top level; `executeRequest` and `runConcurrentRequests`
differ and are embedded in namespaces `V1` and `V2`.

Modelling conventions:
- A JS header object is a finite partial map `String → Option String`;
  `headers[k] = v` is `setHeader`.
- JS exceptions become `Except String`; the error payload is the thrown
  error's `message` string (messages mirror the JS runtime TypeError texts,
  with apostrophes elided).
- `performance.now()` timing is a cost-instrumented semantics: each
  `executeRequest` takes the duration of its header-preparation step and the
  transport exposes the duration of each `send` call; elapsed times are exact
  rationals (the source's `toFixed(2)` / `parseFloat` round-trip is the
  identity on the recorded numeric value, here kept unrounded).
- `console.log` / `console.warn` output is presentation and is dropped,
  except that `applyAuth` additionally returns the list of warning texts it
  emits, since the spec distinguishes "diagnostic emitted" from "error".
-/

/-- A JS object used as a header dictionary: a partial map from key strings
to value strings. -/
def Headers : Type := String → Option String

def emptyHeaders : Headers := fun _ => none

/-- `headers[k] = v`: JS property assignment on a header object. -/
def setHeader (h : Headers) (k v : String) : Headers :=
  fun k' => if k' == k then some v else h k'

/-- One `{ key, value }` entry, the shape used both by Postman request
header lists and by the `apikey` / `bearer` auth parameter arrays. -/
structure KV where
  key : String
  value : String
deriving DecidableEq

/-- The object destructured by the `basic` auth handler:
`const { username, password } = basic`. -/
structure BasicCreds where
  username : String
  password : String
deriving DecidableEq

/-- A Postman auth object as consumed by `applyAuth`: a `type` string plus
the per-type parameter field; a field the JSON does not carry is `none`
(accessing it in JS yields `undefined`). -/
structure Auth where
  type : String
  apikey : Option (List KV) := none
  bearer : Option (List KV) := none
  basic : Option BasicCreds := none
deriving DecidableEq

/-- `entries.find((entry) => entry.key === k)?.value`. -/
def lookupEntry (entries : List KV) (k : String) : Option String :=
  (entries.find? (fun e => e.key == k)).map KV.value

/-- JS truthiness of a string-or-undefined value: `undefined` and the empty
string are falsy. -/
def jsTruthy : Option String → Bool
  | none => false
  | some s => !(s == "")

/-- The diagnostic text of the `apikey` handler's `console.warn`. -/
def apiKeyWarn : String := "Unsupported or missing API key configuration."

/-- Standard base64 alphabet, for `Buffer.from(s).toString(base64)`. -/
def base64Table : List Char :=
  "ABCDEFGHIJKLMNOPQRSTUVWXYZabcdefghijklmnopqrstuvwxyz0123456789+/".toList

def b64c (n : Nat) : Char := base64Table.getD n '='

/-- Base64-encode a byte list (bytes given as `Nat`s below 256). -/
def base64Bytes : List Nat → List Char
  | [] => []
  | [a] => [b64c (a / 4), b64c (a % 4 * 16), '=', '=']
  | [a, b] => [b64c (a / 4), b64c (a % 4 * 16 + b / 16), b64c (b % 16 * 4), '=']
  | a :: b :: c :: rest =>
      b64c (a / 4) :: b64c (a % 4 * 16 + b / 16) :: b64c (b % 16 * 4 + c / 64) ::
        b64c (c % 64) :: base64Bytes rest
termination_by l => l.length

/-- `Buffer.from(s).toString(base64)`: base64 of the UTF-8 bytes of `s`. -/
def base64 (s : String) : String :=
  String.mk (base64Bytes (s.toUTF8.toList.map UInt8.toNat))

/-- `applyAuth(headers, auth)` (src/index.js lines 54-87 and 311-346, the two
variants are identical).  The JS function dispatches on `auth.type` through a
handler table, mutates `headers` and returns it; handlers can throw
(`bearer[0].value` on an absent or empty `bearer` array, destructuring an
absent `basic` object, `.find` on an absent `apikey` array).  The embedding
returns `Except message (headers', warnings)` where `warnings` are the
`console.warn` texts emitted. -/
def applyAuth (headers : Headers) (auth : Option Auth) :
    Except String (Headers × List String) :=
  match auth with
  | none => .ok (headers, [])
  | some a =>
    if a.type == "apikey" then
      match a.apikey with
      | none => .error "TypeError: Cannot read properties of undefined (reading find)"
      | some entries =>
        let keyField := lookupEntry entries "key"
        let valueField := lookupEntry entries "value"
        let inField := lookupEntry entries "in"
        if jsTruthy keyField && jsTruthy valueField && (inField == some "header") then
          .ok (setHeader headers (keyField.getD "") (valueField.getD ""), [])
        else
          .ok (headers, [apiKeyWarn])
    else if a.type == "bearer" then
      match a.bearer with
      | none => .error "TypeError: Cannot read properties of undefined (reading 0)"
      | some [] => .error "TypeError: Cannot read properties of undefined (reading value)"
      | some (e :: _) => .ok (setHeader headers "Authorization" ("Bearer " ++ e.value), [])
    else if a.type == "basic" then
      match a.basic with
      | none => .error "TypeError: Cannot destructure property username of undefined"
      | some c =>
          .ok (setHeader headers "Authorization"
                ("Basic " ++ base64 (c.username ++ ":" ++ c.password)), [])
    else
      .ok (headers, ["Unsupported auth type: " ++ a.type])

/-- The `requestHeaders.reduce((acc, {key, value}) => { acc[key] = value; ... }, {})`
step of `prepareHeaders`: build a header object from the request's declared
header entries, later entries overriding earlier ones. -/
def buildHeaders (requestHeaders : List KV) : Headers :=
  requestHeaders.foldl (fun acc e => setHeader acc e.key e.value) emptyHeaders

/-- `prepareHeaders(requestHeaders, requestAuth, globalAuth)` (lines 96-108
and 355-367, identical in the two variants): build the request headers, pick
`requestAuth || globalAuth` (any auth object is truthy in JS), apply it. -/
def prepareHeaders (requestHeaders : List KV) (requestAuth globalAuth : Option Auth) :
    Except String (Headers × List String) :=
  let auth : Option Auth :=
    match requestAuth with
    | some a => some a
    | none => globalAuth
  applyAuth (buildHeaders requestHeaders) auth

/-- A request descriptor as extracted by `parseCollection` (name, method,
url, header entries, optional raw body, optional request-level auth). -/
structure RequestDesc where
  name : String
  method : String
  url : String
  headers : List KV
  body : Option String
  auth : Option Auth

/-- The config object handed to `axios({...})`. -/
structure RequestConfig where
  method : String
  url : String
  headers : Headers
  data : Option String

/-- An axios response as the executor reads it (`response.status`,
`response.data`; the body is kept as an uninterpreted string). -/
structure Response where
  status : Nat
  data : String
deriving DecidableEq

/-- The error thrown by the transport, with the fields the executor reads:
`error.message`, `error.status`, `error.response.status`,
`error.response.data`, `error.code`; a field the error does not carry is
`none` (JS `undefined`). -/
structure TransportError where
  message : String
  status : Option Nat := none
  responseStatus : Option Nat := none
  responseData : Option String := none
  code : Option String := none
deriving DecidableEq

/-- The transport capability standing for `axios`: `send` either returns a
response or throws a `TransportError`; `sendMillis` gives the wall-clock
duration of each `send` call (the time between the `performance.now()` reads
around the awaited call would differ by this amount). -/
structure Transport where
  send : RequestConfig → Except TransportError Response
  sendMillis : RequestConfig → ℚ

/-- `request.body || null`: an absent or empty body string becomes `null`. -/
def jsOrNull : Option String → Option String
  | some s => if s == "" then none else some s
  | none => none

/-- The settlement record produced by `Promise.allSettled` for one promise:
`{status: "fulfilled", value}` or `{status: "rejected", reason}`. -/
inductive Settled (α : Type) where
  | fulfilled (value : α)
  | rejected (reason : α)
deriving DecidableEq

/-- `Promise.allSettled` over the promises of `executeRequest`: both
variants of `executeRequest` are `async` functions whose entire body after
the initial `performance.now()` read sits inside a `try`/`catch` in which
both branches `return`, so each promise always fulfills; `allSettled`
returns the fulfilled records in the input order. -/
def allSettled {α : Type} (xs : List α) : List (Settled α) :=
  xs.map Settled.fulfilled

namespace V1

/-- The result object returned by variant 1's `executeRequest` (lines
128-133 success shape, 136-141 error shape); a field a branch does not set
is `none`.  `timeTaken` keeps the numeric value formatted into the
`"<n> ms"` string (the summary loop recovers it with `parseFloat`). -/
structure ExecutionResult where
  name : String
  status : String
  data : Option String := none
  error : Option String := none
  timeTaken : ℚ
deriving DecidableEq

/-- `executeRequest(request, globalAuth)` of variant 1 (lines 116-143).
`performance.now()` is read at function entry, BEFORE `prepareHeaders`, so
the recorded span covers header preparation plus the transport call;
`prepMillis` is the duration of the header-preparation step.  A throw from
`prepareHeaders` is caught by the same `catch` as a transport error; the
transport is then never invoked and the span covers only the failed
preparation. -/
def executeRequest (tr : Transport) (prepMillis : ℚ) (request : RequestDesc)
    (globalAuth : Option Auth) : ExecutionResult :=
  match prepareHeaders request.headers request.auth globalAuth with
  | .error msg =>
      { name := request.name, status := "error", error := some msg,
        timeTaken := prepMillis }
  | .ok (headers, _warns) =>
      let cfg : RequestConfig :=
        { method := request.method.toLower, url := request.url,
          headers := headers, data := jsOrNull request.body }
      match tr.send cfg with
      | .ok response =>
          { name := request.name, status := "success",
            data := some response.data,
            timeTaken := prepMillis + tr.sendMillis cfg }
      | .error e =>
          { name := request.name, status := "error", error := some e.message,
            timeTaken := prepMillis + tr.sendMillis cfg }

/-- The summary figures passed to `logSummaryReport` (line 213):
`totalRequests` is `requests.length`, `totalTime` is the batch wall-clock
span `endTime - startTime`, `avgTime` is `totalTime / successCount` of the
counting loop (0 when `successCount` is 0). -/
structure Summary where
  totalRequests : Nat
  successCount : Nat
  failureCount : Nat
  totalTime : ℚ
  avgTime : ℚ
deriving DecidableEq

/-- The `results.forEach` counting loop of variant 1 (lines 200-210): it
branches on the SETTLEMENT status (`result.status === "fulfilled"`), not on
the result object's own `status` field; a fulfilled record counts as a
success and contributes `parseFloat(result.value.timeTaken)`, a rejected
record counts as a failure.  Counts and the time sum are order-independent,
so the left-to-right mutation is modelled by structural recursion. -/
def tally : List (Settled ExecutionResult) → Nat × Nat × ℚ
  | [] => (0, 0, 0)
  | .fulfilled v :: rest =>
      let (s, f, t) := tally rest
      (s + 1, f, t + v.timeTaken)
  | .rejected _ :: rest =>
      let (s, f, t) := tally rest
      (s, f + 1, t)

/-- `runConcurrentRequests(requests, globalAuth)` of variant 1 (lines
186-214): dispatch every request, `Promise.allSettled`, count, compute the
average, report.  `prepMillis` gives each request's header-preparation
duration and `batchMillis` the batch wall-clock span `endTime - startTime`.
The model returns the settled results list together with the summary
figures handed to `logSummaryReport`. -/
def runConcurrentRequests (tr : Transport) (prepMillis : RequestDesc → ℚ)
    (batchMillis : ℚ) (requests : List RequestDesc) (globalAuth : Option Auth) :
    List (Settled ExecutionResult) × Summary :=
  let results :=
    allSettled (requests.map (fun r => executeRequest tr (prepMillis r) r globalAuth))
  let (successCount, failureCount, totalTime) := tally results
  let avgTime : ℚ := if successCount > 0 then totalTime / successCount else 0
  (results,
   { totalRequests := requests.length, successCount := successCount,
     failureCount := failureCount, totalTime := batchMillis, avgTime := avgTime })

end V1

/-- The baseline headers of variant 2 (`COMMON_HEADERS`, lines 233-239). -/
def COMMON_HEADERS : Headers := fun k =>
  if k == "Content-Type" then some "application/json"
  else if k == "Accept" then some "*/*"
  else if k == "Cache-Control" then some "no-cache"
  else if k == "Accept-Encoding" then some "gzip, deflate, br"
  else if k == "Connection" then some "keep-alive"
  else none

/-- JS object spread `{...base, ...extra}`: keys of `extra` win. -/
def spreadMerge (base extra : Headers) : Headers :=
  fun k => match extra k with
  | some v => some v
  | none => base k

namespace V2

/-- JS truthiness of the heterogeneous `statusCode` values of variant 2
(`error.status` / `error.response.status` are numbers, `error.code` is a
string): `undefined`, `0` and `""` are falsy. -/
def truthyStatus : Option (Nat ⊕ String) → Bool
  | none => false
  | some (.inl n) => !(n == 0)
  | some (.inr s) => !(s == "")

/-- JS `a || b` on status-code values. -/
def jsOrStatus (a b : Option (Nat ⊕ String)) : Option (Nat ⊕ String) :=
  if truthyStatus a then a else b

/-- `error?.status || error?.response?.status || error?.code` (line 404). -/
def errStatusCode (e : TransportError) : Option (Nat ⊕ String) :=
  jsOrStatus (e.status.map Sum.inl)
    (jsOrStatus (e.responseStatus.map Sum.inl) (e.code.map Sum.inr))

/-- The result object returned by variant 2's `executeRequest` (lines
392-398 success shape, 400-406 error shape).  The error shape carries NO
`timeTaken` field, hence `Option ℚ` with `none` meaning the field is
absent. -/
structure ExecutionResult where
  name : String
  status : String
  data : Option String := none
  statusCode : Option (Nat ⊕ String) := none
  error : Option String := none
  timeTaken : Option ℚ := none
deriving DecidableEq

/-- `executeRequest(request, globalAuth)` of variant 2 (lines 375-410).
Differences from variant 1: the axios config spreads `COMMON_HEADERS` under
the prepared headers; the success result also records
`response.status`; the error result records a status code from the error
object and `error.response.data`, and records no elapsed time (the `catch`
block never reads `performance.now()`).  As in variant 1 the initial
`performance.now()` read precedes `prepareHeaders`. -/
def executeRequest (tr : Transport) (prepMillis : ℚ) (request : RequestDesc)
    (globalAuth : Option Auth) : ExecutionResult :=
  match prepareHeaders request.headers request.auth globalAuth with
  | .error msg =>
      -- a thrown TypeError has only a `message`; `error?.status`,
      -- `error?.response` and `error?.code` are all `undefined`
      { name := request.name, status := "error", error := some msg }
  | .ok (headers, _warns) =>
      let cfg : RequestConfig :=
        { method := request.method.toLower, url := request.url,
          headers := spreadMerge COMMON_HEADERS headers,
          data := jsOrNull request.body }
      match tr.send cfg with
      | .ok response =>
          { name := request.name, status := "success",
            data := some response.data,
            statusCode := some (Sum.inl response.status),
            timeTaken := some (prepMillis + tr.sendMillis cfg) }
      | .error e =>
          { name := request.name, status := "error", error := some e.message,
            statusCode := errStatusCode e, data := e.responseData }

/-- One entry of variant 2's `responseSummary` array (lines 485-500).  The
source stores `JSON.stringify(result.value.data, null, 2)`; the model keeps
the underlying data value itself, since the stringified rendering is
presentation only. -/
structure ResponseEntry where
  status : String
  statusCode : Option (Nat ⊕ String)
  name : String
  timeTaken : Option ℚ
  data : Option String
deriving DecidableEq

/-- The summary figures passed to variant 2's `logSummaryReport` (lines
514-520), same shapes as variant 1's. -/
structure Summary where
  totalRequests : Nat
  successCount : Nat
  failureCount : Nat
  totalTime : ℚ
  avgTime : ℚ
deriving DecidableEq

/-- The `results.forEach` loop of variant 2 (lines 480-502), paired with the
`requests[index].name` it reads.  It branches on `result.value.status`; on a
REJECTED record `result.value` would be `undefined` and the property read
would throw a TypeError out of the coordinator, which the `Except` models.
A success contributes `parseFloat(result.value.timeTaken)` (success results
always carry `timeTaken`; `getD 0` is unreachable) and an entry keeping its
own `timeTaken`; a failure contributes an entry with `timeTaken: null`.
Counts and the sum are order-independent and entries are emitted in input
order, so the left-to-right mutation is modelled by structural recursion. -/
def tally : List (Settled ExecutionResult × String) →
    Except String (Nat × Nat × ℚ × List ResponseEntry)
  | [] => .ok (0, 0, 0, [])
  | (.rejected _, _) :: _ =>
      .error "TypeError: Cannot read properties of undefined (reading status)"
  | (.fulfilled v, name) :: rest =>
      match tally rest with
      | .error msg => .error msg
      | .ok (s, f, t, entries) =>
        if v.status == "success" then
          .ok (s + 1, f, t + (v.timeTaken.getD 0),
               { status := "success", statusCode := v.statusCode, name := name,
                 timeTaken := v.timeTaken, data := v.data } :: entries)
        else
          .ok (s, f + 1, t,
               { status := "error", statusCode := v.statusCode, name := name,
                 timeTaken := none, data := v.data } :: entries)

/-- `runConcurrentRequests(requests, globalAuth)` of variant 2 (lines
464-521): dispatch, `Promise.allSettled`, build `responseSummary` while
counting, compute the average, report.  Returns the `responseSummary` list
and the summary figures handed to `logSummaryReport` (an `Except` error
would be a TypeError escaping the loop; it never occurs, since all promises
fulfill). -/
def runConcurrentRequests (tr : Transport) (prepMillis : RequestDesc → ℚ)
    (batchMillis : ℚ) (requests : List RequestDesc) (globalAuth : Option Auth) :
    Except String (List ResponseEntry × Summary) :=
  let results :=
    allSettled (requests.map (fun r => executeRequest tr (prepMillis r) r globalAuth))
  match tally (results.zip (requests.map RequestDesc.name)) with
  | .error msg => .error msg
  | .ok (successCount, failureCount, totalTime, responseSummary) =>
    let avgTime : ℚ := if successCount > 0 then totalTime / successCount else 0
    .ok (responseSummary,
      { totalRequests := requests.length, successCount := successCount,
        failureCount := failureCount, totalTime := batchMillis, avgTime := avgTime })

end V2

/-- Both branches of variant 1's `executeRequest` copy `request.name`. -/
lemma V1_executeRequest_name (tr : Transport) (p : ℚ) (r : RequestDesc)
    (ga : Option Auth) : (V1.executeRequest tr p r ga).name = r.name := by
  unfold V1.executeRequest
  split
  · rfl
  · dsimp only
    split <;> rfl

/-- Both branches of variant 2's `executeRequest` copy `request.name`. -/
lemma V2_executeRequest_name (tr : Transport) (p : ℚ) (r : RequestDesc)
    (ga : Option Auth) : (V2.executeRequest tr p r ga).name = r.name := by
  unfold V2.executeRequest
  split
  · rfl
  · dsimp only
    split <;> rfl

/-- Variant 1's counting loop counts every settled record exactly once. -/
lemma V1_tally_counts (rs : List (Settled V1.ExecutionResult)) :
    (V1.tally rs).1 + (V1.tally rs).2.1 = rs.length := by
  induction rs with
  | nil => rfl
  | cons head rest ih =>
    rcases hr : V1.tally rest with ⟨s, f, t⟩
    rw [hr] at ih
    have ih' : s + f = rest.length := ih
    cases head with
    | fulfilled v =>
      simp only [V1.tally, hr, List.length_cons]
      show s + 1 + f = rest.length + 1
      omega
    | rejected v =>
      simp only [V1.tally, hr, List.length_cons]
      show s + (f + 1) = rest.length + 1
      omega

/-- Whenever variant 2's loop completes, it has counted every record exactly
once and pushed exactly one `responseSummary` entry per record. -/
lemma V2_tally_counts (ps : List (Settled V2.ExecutionResult × String))
    (s f : Nat) (t : ℚ) (entries : List V2.ResponseEntry)
    (h : V2.tally ps = .ok (s, f, t, entries)) :
    s + f = ps.length ∧ entries.length = ps.length := by
  induction ps generalizing s f t entries with
  | nil =>
    simp only [V2.tally, Except.ok.injEq, Prod.mk.injEq] at h
    obtain ⟨h1, h2, _, h4⟩ := h
    subst h1; subst h2; subst h4
    simp
  | cons head rest ih =>
    obtain ⟨settled, name⟩ := head
    cases settled with
    | rejected v => simp [V2.tally] at h
    | fulfilled v =>
      rcases heq : V2.tally rest with msg | ⟨s', f', t', entries'⟩
      · simp only [V2.tally, heq] at h
        exact Except.noConfusion h
      · simp only [V2.tally, heq] at h
        obtain ⟨hc1, hc2⟩ := ih s' f' t' entries' heq
        by_cases hs : (v.status == "success") = true
        · rw [if_pos hs] at h
          simp only [Except.ok.injEq, Prod.mk.injEq] at h
          obtain ⟨h1, h2, _, h4⟩ := h
          subst h1; subst h2; subst h4
          exact ⟨by simp only [List.length_cons]; omega,
                 by simp only [List.length_cons, hc2]⟩
        · rw [if_neg hs] at h
          simp only [Except.ok.injEq, Prod.mk.injEq] at h
          obtain ⟨h1, h2, _, h4⟩ := h
          subst h1; subst h2; subst h4
          exact ⟨by simp only [List.length_cons]; omega,
                 by simp only [List.length_cons, hc2]⟩

/-- Whenever variant 2's loop completes, the `responseSummary` entries carry
the `requests[index].name` of their position, in input order. -/
lemma V2_tally_names (ps : List (Settled V2.ExecutionResult × String))
    (s f : Nat) (t : ℚ) (entries : List V2.ResponseEntry)
    (h : V2.tally ps = .ok (s, f, t, entries)) :
    entries.map V2.ResponseEntry.name = ps.map Prod.snd := by
  induction ps generalizing s f t entries with
  | nil =>
    simp only [V2.tally, Except.ok.injEq, Prod.mk.injEq] at h
    obtain ⟨_, _, _, h4⟩ := h
    subst h4
    rfl
  | cons head rest ih =>
    obtain ⟨settled, name⟩ := head
    cases settled with
    | rejected v => simp [V2.tally] at h
    | fulfilled v =>
      rcases heq : V2.tally rest with msg | ⟨s', f', t', entries'⟩
      · simp only [V2.tally, heq] at h
        exact Except.noConfusion h
      · simp only [V2.tally, heq] at h
        have hnames := ih s' f' t' entries' heq
        by_cases hs : (v.status == "success") = true
        · rw [if_pos hs] at h
          simp only [Except.ok.injEq, Prod.mk.injEq] at h
          obtain ⟨_, _, _, h4⟩ := h
          subst h4
          simp [hnames]
        · rw [if_neg hs] at h
          simp only [Except.ok.injEq, Prod.mk.injEq] at h
          obtain ⟨_, _, _, h4⟩ := h
          subst h4
          simp [hnames]

/-- On a list of fulfilled records (as `Promise.allSettled` produces here)
variant 2's loop never hits the rejected branch, so it completes. -/
lemma V2_tally_fulfilled_ok (vs : List V2.ExecutionResult) (names : List String) :
    ∃ out, V2.tally ((allSettled vs).zip names) = .ok out := by
  induction vs generalizing names with
  | nil => exact ⟨(0, 0, 0, []), rfl⟩
  | cons v rest ih =>
    cases names with
    | nil => exact ⟨(0, 0, 0, []), rfl⟩
    | cons name names' =>
      obtain ⟨⟨s, f, t, entries⟩, hout⟩ := ih names'
      have hzip : (allSettled (v :: rest)).zip (name :: names') =
          (Settled.fulfilled v, name) :: ((allSettled rest).zip names') := rfl
      rw [hzip]
      simp only [V2.tally, hout]
      by_cases hs : (v.status == "success") = true
      · rw [if_pos hs]
        exact ⟨_, rfl⟩
      · rw [if_neg hs]
        exact ⟨_, rfl⟩

/-- Dispatch of the `apikey` handler, by computation. -/
lemma applyAuth_apikey_dispatch (hmap : Headers) (entries : List KV)
    (br : Option (List KV)) (bs : Option BasicCreds) :
    applyAuth hmap (some ⟨"apikey", some entries, br, bs⟩) =
      (if jsTruthy (lookupEntry entries "key") && jsTruthy (lookupEntry entries "value") &&
          (lookupEntry entries "in" == some "header") then
        .ok (setHeader hmap ((lookupEntry entries "key").getD "")
              ((lookupEntry entries "value").getD ""), [])
      else
        .ok (hmap, [apiKeyWarn])) := rfl

/-- Dispatch of the `apikey` handler on an absent parameter array. -/
lemma applyAuth_apikey_none (hmap : Headers) (br : Option (List KV))
    (bs : Option BasicCreds) :
    applyAuth hmap (some ⟨"apikey", none, br, bs⟩) =
      .error "TypeError: Cannot read properties of undefined (reading find)" := rfl

/-- Dispatch of the `bearer` handler on a nonempty parameter array. -/
lemma applyAuth_bearer_cons (hmap : Headers) (ak : Option (List KV))
    (bs : Option BasicCreds) (e : KV) (rest : List KV) :
    applyAuth hmap (some ⟨"bearer", ak, some (e :: rest), bs⟩) =
      .ok (setHeader hmap "Authorization" ("Bearer " ++ e.value), []) := rfl

/-- Dispatch of the `bearer` handler on an empty parameter array. -/
lemma applyAuth_bearer_nil (hmap : Headers) (ak : Option (List KV))
    (bs : Option BasicCreds) :
    applyAuth hmap (some ⟨"bearer", ak, some [], bs⟩) =
      .error "TypeError: Cannot read properties of undefined (reading value)" := rfl

/-- Dispatch of the `bearer` handler on an absent parameter array. -/
lemma applyAuth_bearer_none (hmap : Headers) (ak : Option (List KV))
    (bs : Option BasicCreds) :
    applyAuth hmap (some ⟨"bearer", ak, none, bs⟩) =
      .error "TypeError: Cannot read properties of undefined (reading 0)" := rfl

/-- Dispatch of the `basic` handler on present credentials. -/
lemma applyAuth_basic_some (hmap : Headers) (ak br : Option (List KV))
    (c : BasicCreds) :
    applyAuth hmap (some ⟨"basic", ak, br, some c⟩) =
      .ok (setHeader hmap "Authorization"
            ("Basic " ++ base64 (c.username ++ ":" ++ c.password)), []) := rfl

/-- Dispatch of the `basic` handler on absent credentials. -/
lemma applyAuth_basic_none (hmap : Headers) (ak br : Option (List KV)) :
    applyAuth hmap (some ⟨"basic", ak, br, none⟩) =
      .error "TypeError: Cannot destructure property username of undefined" := rfl

/-- C7: the auth resolver selects `effectiveAuth = requestAuth ?? globalAuth`:
with a request-level descriptor present, the global descriptor has no effect
on the produced headers (the result equals applying the request-level
descriptor alone), and with both absent the built request headers pass
through unchanged with no diagnostic. -/
theorem C7_auth_precedence (reqHeaders : List KV) (ra : Auth) (ga ga' : Option Auth) :
    prepareHeaders reqHeaders (some ra) ga = prepareHeaders reqHeaders (some ra) ga' ∧
    prepareHeaders reqHeaders (some ra) ga = applyAuth (buildHeaders reqHeaders) (some ra) ∧
    prepareHeaders reqHeaders none none = .ok (buildHeaders reqHeaders, []) :=
  ⟨rfl, rfl, rfl⟩

/-- C8 counterexample: an `apikey` descriptor whose `key` field is PRESENT
(with value `""`) together with a present `value` field and
`location == "header"`; the claim predicts `headers[keyName] = keyValue`,
but the code's truthiness test treats the present-but-empty `keyName` as
missing and leaves the headers unchanged, emitting the diagnostic. -/
theorem C8_counterexample :
    lookupEntry [⟨"key", ""⟩, ⟨"value", "v"⟩, ⟨"in", "header"⟩] "key" = some "" ∧
    lookupEntry [⟨"key", ""⟩, ⟨"value", "v"⟩, ⟨"in", "header"⟩] "value" = some "v" ∧
    lookupEntry [⟨"key", ""⟩, ⟨"value", "v"⟩, ⟨"in", "header"⟩] "in" = some "header" ∧
    applyAuth emptyHeaders
        (some { type := "apikey",
                apikey := some [⟨"key", ""⟩, ⟨"value", "v"⟩, ⟨"in", "header"⟩] }) =
      .ok (emptyHeaders, [apiKeyWarn]) ∧
    emptyHeaders "" = none :=
  ⟨rfl, rfl, rfl, rfl, rfl⟩

/-- C8 (amended): the resolver sets `headers[keyName] = keyValue` exactly
when the `key` and `value` fields are present AND non-empty (JS truthiness)
and `location == "header"`; in every other case it returns the headers
completely unchanged with only the diagnostic, and never raises an error, so
the request proceeds. -/
theorem C8_apikey_amended (hmap : Headers) (entries : List KV) :
    ((jsTruthy (lookupEntry entries "key") && jsTruthy (lookupEntry entries "value") &&
        (lookupEntry entries "in" == some "header")) = true →
      applyAuth hmap (some { type := "apikey", apikey := some entries }) =
        .ok (setHeader hmap ((lookupEntry entries "key").getD "")
              ((lookupEntry entries "value").getD ""), [])) ∧
    ((jsTruthy (lookupEntry entries "key") && jsTruthy (lookupEntry entries "value") &&
        (lookupEntry entries "in" == some "header")) = false →
      applyAuth hmap (some { type := "apikey", apikey := some entries }) =
        .ok (hmap, [apiKeyWarn])) := by
  constructor
  · intro hc
    rw [applyAuth_apikey_dispatch, if_pos hc]
  · intro hc
    rw [applyAuth_apikey_dispatch, if_neg (by simp [hc])]

/-- Witness for C8 (amended): a well-formed api-key descriptor sets the
header, evaluated at a concrete input. -/
theorem C8_apikey_amended_witness :
    applyAuth emptyHeaders
        (some { type := "apikey",
                apikey := some [⟨"key", "X-Key"⟩, ⟨"value", "v"⟩, ⟨"in", "header"⟩] }) =
      .ok (setHeader emptyHeaders "X-Key" "v", []) :=
  (C8_apikey_amended emptyHeaders
    [⟨"key", "X-Key"⟩, ⟨"value", "v"⟩, ⟨"in", "header"⟩]).1 rfl

/-- C9: a `bearer` descriptor with a token entry present sets
`headers["Authorization"] = "Bearer " ++ token`; with the token absent
(empty parameter array) the request's execution yields an "error" result in
both variants (the thrown TypeError is caught at the executor boundary), and
the batch is not aborted: the coordinator still produces one settled result
per descriptor in variant 1 and still completes with a summary in
variant 2. -/
theorem C9_bearer_token (hmap : Headers) (e : KV) (rest : List KV)
    (tr : Transport) (p : ℚ) (name method url : String) (rh : List KV)
    (body : Option String) (ga : Option Auth) :
    applyAuth hmap (some { type := "bearer", bearer := some (e :: rest) }) =
      .ok (setHeader hmap "Authorization" ("Bearer " ++ e.value), []) ∧
    (V1.executeRequest tr p
      ⟨name, method, url, rh, body, some { type := "bearer", bearer := some [] }⟩
      ga).status = "error" ∧
    (V2.executeRequest tr p
      ⟨name, method, url, rh, body, some { type := "bearer", bearer := some [] }⟩
      ga).status = "error" ∧
    (∀ (prepMillis : RequestDesc → ℚ) (batchMillis : ℚ) (requests : List RequestDesc),
      (V1.runConcurrentRequests tr prepMillis batchMillis requests ga).1.length =
        requests.length ∧
      ∃ out, V2.runConcurrentRequests tr prepMillis batchMillis requests ga = .ok out) := by
  refine ⟨rfl, rfl, rfl, ?_⟩
  intro prepMillis batchMillis requests
  constructor
  · rcases htl : V1.tally (allSettled (requests.map
        (fun r => V1.executeRequest tr (prepMillis r) r ga))) with ⟨s, f, t⟩
    simp [V1.runConcurrentRequests, htl, allSettled]
  · obtain ⟨⟨s, f, t, entries⟩, hout⟩ :=
      V2_tally_fulfilled_ok (requests.map (fun r => V2.executeRequest tr (prepMillis r) r ga))
        (requests.map RequestDesc.name)
    refine ⟨(entries, ⟨requests.length, s, f, batchMillis,
      if s > 0 then t / (s : ℚ) else 0⟩), ?_⟩
    simp only [V2.runConcurrentRequests, hout]

/-- C2: in both variants the summary satisfies
`successCount + failureCount = totalRequests = length of the results
sequence`: every descriptor contributes exactly one result and each result
increments exactly one of the two counters. -/
theorem C2_summary_counts (tr : Transport) (prepMillis : RequestDesc → ℚ)
    (batchMillis : ℚ) (requests : List RequestDesc) (ga : Option Auth) :
    ((V1.runConcurrentRequests tr prepMillis batchMillis requests ga).2.successCount +
       (V1.runConcurrentRequests tr prepMillis batchMillis requests ga).2.failureCount =
       (V1.runConcurrentRequests tr prepMillis batchMillis requests ga).2.totalRequests ∧
     (V1.runConcurrentRequests tr prepMillis batchMillis requests ga).2.totalRequests =
       (V1.runConcurrentRequests tr prepMillis batchMillis requests ga).1.length) ∧
    (∃ entries summary,
      V2.runConcurrentRequests tr prepMillis batchMillis requests ga =
        .ok (entries, summary) ∧
      summary.successCount + summary.failureCount = summary.totalRequests ∧
      summary.totalRequests = entries.length) := by
  constructor
  · rcases htl : V1.tally (allSettled (requests.map
        (fun r => V1.executeRequest tr (prepMillis r) r ga))) with ⟨s, f, t⟩
    have hc := V1_tally_counts (allSettled (requests.map
        (fun r => V1.executeRequest tr (prepMillis r) r ga)))
    rw [htl] at hc
    have hc' : s + f = requests.length := by simpa [allSettled] using hc
    constructor
    · simp only [V1.runConcurrentRequests, htl]
      exact hc'
    · simp [V1.runConcurrentRequests, htl, allSettled]
  · obtain ⟨⟨s, f, t, entries⟩, hout⟩ :=
      V2_tally_fulfilled_ok (requests.map (fun r => V2.executeRequest tr (prepMillis r) r ga))
        (requests.map RequestDesc.name)
    obtain ⟨hc, hl⟩ := V2_tally_counts _ s f t entries hout
    have hlen : ((allSettled (requests.map
        (fun r => V2.executeRequest tr (prepMillis r) r ga))).zip
          (requests.map RequestDesc.name)).length = requests.length := by
      simp [allSettled]
    refine ⟨entries, ⟨requests.length, s, f, batchMillis,
      if s > 0 then t / (s : ℚ) else 0⟩, ?_, ?_, ?_⟩
    · simp only [V2.runConcurrentRequests, hout]
    · rw [hlen] at hc
      exact hc
    · rw [hlen] at hl
      exact hl.symm

/-- C3: result order follows input order: for every index `i` into the
descriptor list, variant 1's i-th settled record is the fulfilled execution
of the i-th descriptor (and carries its `name`), and variant 2's i-th
`responseSummary` entry carries the i-th descriptor's `name` — the model's
`Promise.allSettled` returns its records indexed by the input array,
independent of completion order. -/
theorem C3_order_preserved (tr : Transport) (prepMillis : RequestDesc → ℚ)
    (batchMillis : ℚ) (requests : List RequestDesc) (ga : Option Auth)
    (i : Nat) (h : i < requests.length) :
    (∃ v, (V1.runConcurrentRequests tr prepMillis batchMillis requests ga).1[i]? =
        some (Settled.fulfilled v) ∧ v.name = requests[i].name) ∧
    (∃ entries summary,
      V2.runConcurrentRequests tr prepMillis batchMillis requests ga =
        .ok (entries, summary) ∧
      entries[i]?.map V2.ResponseEntry.name = some requests[i].name) := by
  constructor
  · rcases htl : V1.tally (allSettled (requests.map
        (fun r => V1.executeRequest tr (prepMillis r) r ga))) with ⟨s, f, t⟩
    refine ⟨V1.executeRequest tr (prepMillis requests[i]) requests[i] ga, ?_,
      V1_executeRequest_name tr (prepMillis requests[i]) requests[i] ga⟩
    simp only [V1.runConcurrentRequests, htl, allSettled]
    simp [List.getElem?_map, List.getElem?_eq_getElem h]
  · obtain ⟨⟨s, f, t, entries⟩, hout⟩ :=
      V2_tally_fulfilled_ok (requests.map (fun r => V2.executeRequest tr (prepMillis r) r ga))
        (requests.map RequestDesc.name)
    have hnames := V2_tally_names _ s f t entries hout
    refine ⟨entries, ⟨requests.length, s, f, batchMillis,
      if s > 0 then t / (s : ℚ) else 0⟩, ?_, ?_⟩
    · simp only [V2.runConcurrentRequests, hout]
    · have hsnd : ((allSettled (requests.map
          (fun r => V2.executeRequest tr (prepMillis r) r ga))).zip
            (requests.map RequestDesc.name)).map Prod.snd =
          requests.map RequestDesc.name := by
        apply List.map_snd_zip
        simp [allSettled]
      have : (entries.map V2.ResponseEntry.name)[i]? = some requests[i].name := by
        rw [hnames, hsnd]
        simp [List.getElem?_map, List.getElem?_eq_getElem h]
      simpa [List.getElem?_map] using this

/-- Witness for C3 at a concrete two-request batch and index 1. -/
theorem C3_order_preserved_witness :
    (∃ v, (V1.runConcurrentRequests ⟨fun _ => .ok ⟨200, "ok"⟩, fun _ => 1⟩ (fun _ => 0) 7
        [⟨"alpha", "GET", "u1", [], none, none⟩, ⟨"beta", "GET", "u2", [], none, none⟩]
        none).1[1]? = some (Settled.fulfilled v) ∧
        v.name = ([⟨"alpha", "GET", "u1", [], none, none⟩,
                   ⟨"beta", "GET", "u2", [], none, none⟩] :
            List RequestDesc)[1].name) ∧
    (∃ entries summary,
      V2.runConcurrentRequests ⟨fun _ => .ok ⟨200, "ok"⟩, fun _ => 1⟩ (fun _ => 0) 7
        [⟨"alpha", "GET", "u1", [], none, none⟩, ⟨"beta", "GET", "u2", [], none, none⟩]
        none = .ok (entries, summary) ∧
      entries[1]?.map V2.ResponseEntry.name =
        some ([⟨"alpha", "GET", "u1", [], none, none⟩,
               ⟨"beta", "GET", "u2", [], none, none⟩] :
            List RequestDesc)[1].name) :=
  C3_order_preserved ⟨fun _ => .ok ⟨200, "ok"⟩, fun _ => 1⟩ (fun _ => 0) 7
    [⟨"alpha", "GET", "u1", [], none, none⟩, ⟨"beta", "GET", "u2", [], none, none⟩]
    none 1 (by decide)

/-- C4: `executeRequest` never propagates an exception: in both variants its
result's `status` is either "success" or "error"; a throw during header
preparation and a throwing transport each surface as an "error" result whose
`error` field carries the thrown error's message; and no exception reaches
the batch coordinator (variant 2's coordinator, whose loop would be the one
to crash on a rejected promise, always completes with a summary). -/
theorem C4_executor_captures_failures (tr : Transport) (p : ℚ) (r : RequestDesc)
    (ga : Option Auth) :
    ((V1.executeRequest tr p r ga).status = "success" ∨
     (V1.executeRequest tr p r ga).status = "error") ∧
    ((V2.executeRequest tr p r ga).status = "success" ∨
     (V2.executeRequest tr p r ga).status = "error") ∧
    (∀ msg, prepareHeaders r.headers r.auth ga = .error msg →
      (V1.executeRequest tr p r ga).status = "error" ∧
      (V1.executeRequest tr p r ga).error = some msg ∧
      (V2.executeRequest tr p r ga).status = "error" ∧
      (V2.executeRequest tr p r ga).error = some msg) ∧
    (∀ e, (∀ cfg, tr.send cfg = .error e) →
      ∀ hs ws, prepareHeaders r.headers r.auth ga = .ok (hs, ws) →
      (V1.executeRequest tr p r ga).status = "error" ∧
      (V1.executeRequest tr p r ga).error = some e.message ∧
      (V2.executeRequest tr p r ga).status = "error" ∧
      (V2.executeRequest tr p r ga).error = some e.message) ∧
    (∀ (prepMillis : RequestDesc → ℚ) (batchMillis : ℚ) (requests : List RequestDesc),
      ∃ out, V2.runConcurrentRequests tr prepMillis batchMillis requests ga = .ok out) := by
  refine ⟨?_, ?_, ?_, ?_, ?_⟩
  · unfold V1.executeRequest
    split
    · exact Or.inr rfl
    · dsimp only
      split
      · exact Or.inl rfl
      · exact Or.inr rfl
  · unfold V2.executeRequest
    split
    · exact Or.inr rfl
    · dsimp only
      split
      · exact Or.inl rfl
      · exact Or.inr rfl
  · intro msg hmsg
    simp [V1.executeRequest, V2.executeRequest, hmsg]
  · intro e he hs ws hok
    simp [V1.executeRequest, V2.executeRequest, hok, he]
  · intro prepMillis batchMillis requests
    obtain ⟨⟨s, f, t, entries⟩, hout⟩ :=
      V2_tally_fulfilled_ok (requests.map (fun r => V2.executeRequest tr (prepMillis r) r ga))
        (requests.map RequestDesc.name)
    refine ⟨(entries, ⟨requests.length, s, f, batchMillis,
      if s > 0 then t / (s : ℚ) else 0⟩), ?_⟩
    simp only [V2.runConcurrentRequests, hout]

/-- Witness for C4 at a transport that always throws. -/
theorem C4_executor_captures_failures_witness :
    (V1.executeRequest ⟨fun _ => .error ⟨"boom", none, none, none, none⟩, fun _ => 1⟩ 1
        ⟨"r", "GET", "u", [], none, none⟩ none).error = some "boom" ∧
    (V2.executeRequest ⟨fun _ => .error ⟨"boom", none, none, none, none⟩, fun _ => 1⟩ 1
        ⟨"r", "GET", "u", [], none, none⟩ none).error = some "boom" := by
  have h := C4_executor_captures_failures
    ⟨fun _ => .error ⟨"boom", none, none, none, none⟩, fun _ => 1⟩ 1
    ⟨"r", "GET", "u", [], none, none⟩ none
  obtain ⟨-, -, -, h4, -⟩ := h
  have h5 := h4 ⟨"boom", none, none, none, none⟩ (fun _ => rfl) emptyHeaders [] rfl
  exact ⟨h5.2.1, h5.2.2.2⟩

/-- C6 counterexample: with a header-preparation step of 5 ms and a
transport call of 10 ms, variant 1 records `timeTaken = 15`, not the
transport-only span 10 (the `performance.now()` start is read before header
assembly); and variant 2's failure result records no elapsed time at all
(its catch block sets no `timeTaken` field), though the claim says it is
always recorded. -/
theorem C6_counterexample :
    ((V1.executeRequest ⟨fun _ => .ok ⟨200, "ok"⟩, fun _ => 10⟩ 5
        ⟨"r1", "GET", "u", [], none, none⟩ none).timeTaken = 15 ∧ (15 : ℚ) ≠ 10) ∧
    (V2.executeRequest ⟨fun _ => .error ⟨"boom", none, none, none, none⟩, fun _ => 10⟩ 5
        ⟨"r1", "GET", "u", [], none, none⟩ none).timeTaken = none := by
  refine ⟨⟨?_, by norm_num⟩, rfl⟩
  show (5 : ℚ) + 10 = 15
  norm_num

/-- C6 (amended): the recorded span starts before header assembly: when
header preparation (taking `p`) succeeds and the transport call takes `d`,
variant 1 records `timeTaken = p + d` for success AND failure; variant 2
records `timeTaken = p + d` only on a "success" result and records no
elapsed time on an "error" result; and when header preparation itself
throws, variant 1 records only the time spent in the failed preparation. -/
theorem C6_elapsed_span_amended (tr : Transport) (d p : ℚ) (r : RequestDesc)
    (ga : Option Auth) (hd : ∀ cfg, tr.sendMillis cfg = d) :
    (∀ hs ws, prepareHeaders r.headers r.auth ga = .ok (hs, ws) →
      (V1.executeRequest tr p r ga).timeTaken = p + d) ∧
    ((V2.executeRequest tr p r ga).status = "success" →
      (V2.executeRequest tr p r ga).timeTaken = some (p + d)) ∧
    ((V2.executeRequest tr p r ga).status = "error" →
      (V2.executeRequest tr p r ga).timeTaken = none) ∧
    (∀ msg, prepareHeaders r.headers r.auth ga = .error msg →
      (V1.executeRequest tr p r ga).timeTaken = p) := by
  refine ⟨?_, ?_, ?_, ?_⟩
  · intro hs ws hok
    simp only [V1.executeRequest, hok]
    split <;> simp [hd]
  · intro hsucc
    rcases hp : prepareHeaders r.headers r.auth ga with msg | ⟨hs, ws⟩
    · simp only [V2.executeRequest, hp] at hsucc
      exact absurd hsucc (by decide)
    · simp only [V2.executeRequest, hp] at hsucc ⊢
      split at hsucc
      · rename_i resp heq
        simp only [heq, hd]
      · exact absurd (show ("error" : String) = "success" from hsucc) (by decide)
  · intro herr
    rcases hp : prepareHeaders r.headers r.auth ga with msg | ⟨hs, ws⟩
    · simp only [V2.executeRequest, hp]
    · simp only [V2.executeRequest, hp] at herr ⊢
      split at herr
      · exact absurd (show ("success" : String) = "error" from herr) (by decide)
      · rename_i e heq
        simp only [heq]
  · intro msg hp
    simp only [V1.executeRequest, hp]

/-- Witness for C6 (amended) at concrete durations 5 and 10. -/
theorem C6_elapsed_span_amended_witness :
    (V1.executeRequest ⟨fun _ => .ok ⟨200, "ok"⟩, fun _ => 10⟩ 5
        ⟨"r1", "GET", "u", [], none, none⟩ none).timeTaken = 5 + 10 :=
  (C6_elapsed_span_amended ⟨fun _ => .ok ⟨200, "ok"⟩, fun _ => 10⟩ 10 5
    ⟨"r1", "GET", "u", [], none, none⟩ none (fun _ => rfl)).1 emptyHeaders [] rfl

/-- C10: `applyAuth` is frame-preserving: whenever a `bearer` or `basic`
descriptor produces a result header map, every key other than
"Authorization" keeps its input value (in particular no other key is
added), and whenever an `apikey` descriptor produces a result header map,
every key other than the descriptor's key name keeps its input value. -/
theorem C10_applyAuth_frame (hmap : Headers) (a : Auth) (h' : Headers)
    (w : List String) (hok : applyAuth hmap (some a) = .ok (h', w)) :
    ((a.type = "bearer" ∨ a.type = "basic") →
      ∀ k, k ≠ "Authorization" → h' k = hmap k) ∧
    (a.type = "apikey" →
      ∀ k, k ≠ (match a.apikey with
                | some entries => (lookupEntry entries "key").getD ""
                | none => "") →
        h' k = hmap k) := by
  obtain ⟨ty, ak, br, bs⟩ := a
  constructor
  · rintro (hb | hb) k hk
    · have hb' : ty = "bearer" := hb
      subst hb'
      have hkk : (k == "Authorization") = false := beq_eq_false_iff_ne.mpr hk
      rcases br with _ | ⟨_ | ⟨e, rest⟩⟩
      · rw [applyAuth_bearer_none] at hok
        exact Except.noConfusion hok
      · rw [applyAuth_bearer_nil] at hok
        exact Except.noConfusion hok
      · rw [applyAuth_bearer_cons] at hok
        injection hok with hp
        injection hp with hh hw
        subst hh
        simp [setHeader, hkk]
    · have hb' : ty = "basic" := hb
      subst hb'
      have hkk : (k == "Authorization") = false := beq_eq_false_iff_ne.mpr hk
      rcases bs with _ | c
      · rw [applyAuth_basic_none] at hok
        exact Except.noConfusion hok
      · rw [applyAuth_basic_some] at hok
        injection hok with hp
        injection hp with hh hw
        subst hh
        simp [setHeader, hkk]
  · intro hb k hk
    have hb' : ty = "apikey" := hb
    subst hb'
    rcases ak with _ | entries
    · rw [applyAuth_apikey_none] at hok
      exact Except.noConfusion hok
    · rw [applyAuth_apikey_dispatch] at hok
      have hk' : k ≠ (lookupEntry entries "key").getD "" := hk
      have hkk : (k == (lookupEntry entries "key").getD "") = false :=
        beq_eq_false_iff_ne.mpr hk'
      by_cases hc : (jsTruthy (lookupEntry entries "key") &&
          jsTruthy (lookupEntry entries "value") &&
          (lookupEntry entries "in" == some "header")) = true
      · rw [if_pos hc] at hok
        injection hok with hp
        injection hp with hh hw
        subst hh
        simp [setHeader, hkk]
      · rw [if_neg hc] at hok
        injection hok with hp
        injection hp with hh hw
        subst hh
        rfl

/-- Witness for C10: a bearer application leaves an unrelated existing
header key untouched, evaluated at a concrete input. -/
theorem C10_applyAuth_frame_witness :
    (setHeader (setHeader emptyHeaders "X-Trace" "1") "Authorization"
        ("Bearer " ++ "t")) "X-Trace" =
      (setHeader emptyHeaders "X-Trace" "1") "X-Trace" :=
  (C10_applyAuth_frame (setHeader emptyHeaders "X-Trace" "1")
    ⟨"bearer", none, some [⟨"token", "t"⟩], none⟩
    (setHeader (setHeader emptyHeaders "X-Trace" "1") "Authorization" ("Bearer " ++ "t"))
    [] rfl).1 (Or.inl rfl) "X-Trace" (by decide)

/-- C1 (scenario, mixed batch of 3 with a network error on request 2):
variant 2 produces 3 entries in input order, the second an "error" with the
other two "success" carrying their own independently measured timings
(0 + 10 and 0 + 30 ms), and counts successCount = 2, failureCount = 1 as
the claim states; but variant 1, which classifies by promise settlement
while `executeRequest` always fulfills, counts the network-error request as
a success: successCount = 3, failureCount = 0. -/
theorem C1_mixed_batch_eval :
    (V2.runConcurrentRequests
        ⟨fun cfg => if cfg.url == "u2"
            then .error ⟨"Network Error", none, none, none, some "ECONNREFUSED"⟩
            else .ok ⟨200, "ok"⟩,
          fun cfg => if cfg.url == "u1" then 10 else if cfg.url == "u2" then 20 else 30⟩
        (fun _ => 0) 50
        [⟨"req1", "GET", "u1", [], none, none⟩,
         ⟨"req2", "GET", "u2", [], none, none⟩,
         ⟨"req3", "GET", "u3", [], none, none⟩] none).map
        (fun out => (out.1, out.2.successCount, out.2.failureCount, out.2.totalRequests)) =
      .ok ([⟨"success", some (Sum.inl 200), "req1", some (0 + 10), some "ok"⟩,
            ⟨"error", some (Sum.inr "ECONNREFUSED"), "req2", none, none⟩,
            ⟨"success", some (Sum.inl 200), "req3", some (0 + 30), some "ok"⟩],
           2, 1, 3) ∧
    (V1.runConcurrentRequests
        ⟨fun cfg => if cfg.url == "u2"
            then .error ⟨"Network Error", none, none, none, some "ECONNREFUSED"⟩
            else .ok ⟨200, "ok"⟩,
          fun cfg => if cfg.url == "u1" then 10 else if cfg.url == "u2" then 20 else 30⟩
        (fun _ => 0) 50
        [⟨"req1", "GET", "u1", [], none, none⟩,
         ⟨"req2", "GET", "u2", [], none, none⟩,
         ⟨"req3", "GET", "u3", [], none, none⟩] none).2.successCount = 3 ∧
    (V1.runConcurrentRequests
        ⟨fun cfg => if cfg.url == "u2"
            then .error ⟨"Network Error", none, none, none, some "ECONNREFUSED"⟩
            else .ok ⟨200, "ok"⟩,
          fun cfg => if cfg.url == "u1" then 10 else if cfg.url == "u2" then 20 else 30⟩
        (fun _ => 0) 50
        [⟨"req1", "GET", "u1", [], none, none⟩,
         ⟨"req2", "GET", "u2", [], none, none⟩,
         ⟨"req3", "GET", "u3", [], none, none⟩] none).2.failureCount = 0 :=
  ⟨rfl, rfl, rfl⟩

/-- C5 (average over successes): at a two-request batch where request 1
succeeds in 0 + 10 ms and request 2 raises a network error after 0 + 30 ms,
variant 2 computes the claimed success-only mean 10 (and 0 on a batch with
zero successes), but variant 1, which treats every settled promise as a
success, includes the failed request's time in both the sum and the divisor
and reports 20. -/
theorem C5_average_divergence :
    (V1.runConcurrentRequests
        ⟨fun cfg => if cfg.url == "u2"
            then .error ⟨"Network Error", none, none, none, some "ECONNREFUSED"⟩
            else .ok ⟨200, "ok"⟩,
          fun cfg => if cfg.url == "u1" then 10 else 30⟩
        (fun _ => 0) 50
        [⟨"r1", "GET", "u1", [], none, none⟩,
         ⟨"r2", "GET", "u2", [], none, none⟩] none).2.avgTime = 20 ∧
    (20 : ℚ) ≠ 10 ∧
    (V2.runConcurrentRequests
        ⟨fun cfg => if cfg.url == "u2"
            then .error ⟨"Network Error", none, none, none, some "ECONNREFUSED"⟩
            else .ok ⟨200, "ok"⟩,
          fun cfg => if cfg.url == "u1" then 10 else 30⟩
        (fun _ => 0) 50
        [⟨"r1", "GET", "u1", [], none, none⟩,
         ⟨"r2", "GET", "u2", [], none, none⟩] none).map (fun out => out.2.avgTime) =
      .ok 10 ∧
    (V2.runConcurrentRequests
        ⟨fun cfg => if cfg.url == "u2"
            then .error ⟨"Network Error", none, none, none, some "ECONNREFUSED"⟩
            else .ok ⟨200, "ok"⟩,
          fun cfg => if cfg.url == "u1" then 10 else 30⟩
        (fun _ => 0) 50
        [⟨"r2", "GET", "u2", [], none, none⟩] none).map (fun out => out.2.avgTime) =
      .ok 0 := by
  refine ⟨?_, by norm_num, ?_, rfl⟩
  · show (((0 : ℚ) + ((0 : ℚ) + 30)) + ((0 : ℚ) + 10)) / ((2 : ℕ) : ℚ) = 20
    norm_num
  · show (Except.ok (((0 : ℚ) + ((0 : ℚ) + 10)) / ((1 : ℕ) : ℚ)) : Except String ℚ) =
      .ok 10
    exact congrArg Except.ok (by norm_num)
